import Mathlib

/-!
Verification of the cenima-cli content-resolution pipeline.

This file gives a shallow embedding of the core scraper functions of the
repository (cenima/scraper.py and cenima/processor.py) and proves or refutes
the specification's claims about them.  Pure text-processing functions are
translated directly; network interaction (HTTP fetches, AJAX calls) is
modelled by explicit environment records whose fields stand for the response
a given request would produce, and HTML documents are modelled by records
holding exactly the projections the scraping code inspects (selector results,
attribute values, script bodies), in document order.
-/

namespace Cenima

/-! ### Character and string utilities (Python semantics)

Python string methods are modelled on `List Char`.  Case folding and
character-class tests are modelled on the ASCII range (the source only ever
compares against ASCII literals; Arabic text is caseless).
-/

/-- ASCII decimal digit, as matched by the `\d` class in the source regexes. -/
def isDig (c : Char) : Bool := '0' ≤ c && c ≤ '9'

/-- Python `str.lower`, ASCII case folding. -/
def lowerStr (s : String) : String := ⟨s.data.map Char.toLower⟩

/-- Whitespace recognized by Python `str.strip` / `str.split`. -/
def isSpace (c : Char) : Bool :=
  c = ' ' || c = '\t' || c = '\n' || c = '\r' || c = '\x0b' || c = '\x0c'

/-- Python `str.strip()`. -/
def stripChars (cs : List Char) : List Char :=
  ((cs.dropWhile isSpace).reverse.dropWhile isSpace).reverse

/-- Python `str.strip()` on strings. -/
def stripStr (s : String) : String := ⟨stripChars s.data⟩

/-- Occurrence of `pat` at some position of the subject. -/
def infixAt (pat : List Char) : List Char → Bool
  | [] => pat.isEmpty
  | c :: cs => pat.isPrefixOf (c :: cs) || infixAt pat cs

/-- Python `sub in s` substring containment. -/
def containsSub (s sub : String) : Bool := infixAt sub.data s.data

/-- Numeric value of a nonempty ASCII digit string (Python `int(...)`). -/
def natOfDigits (ds : List Char) : Nat :=
  ds.foldl (fun a c => 10 * a + (c.toNat - '0'.toNat)) 0

/-! ### Percent decoding (`urllib.parse.unquote`)

`unquote` replaces each maximal run of `%HH` escapes by the UTF-8 decoding of
the corresponding byte string (invalid sequences become U+FFFD, Python's
`errors="replace"`); malformed escapes are kept verbatim.
-/

/-- Hex digit value (`0-9a-fA-F`). -/
def hexVal (c : Char) : Option Nat :=
  let n := c.toNat
  if 48 ≤ n && n ≤ 57 then some (n - 48)
  else if 97 ≤ n && n ≤ 102 then some (n - 87)
  else if 65 ≤ n && n ≤ 70 then some (n - 55)
  else none

/-- Tokenize a string into literal characters and `%HH` escape bytes. -/
def pctTokens : List Char → List (Sum Char Nat)
  | [] => []
  | '%' :: h1 :: h2 :: rest =>
    match hexVal h1, hexVal h2 with
    | some a, some b => Sum.inr (16 * a + b) :: pctTokens rest
    | _, _ => Sum.inl '%' :: pctTokens (h1 :: h2 :: rest)
  | c :: rest => Sum.inl c :: pctTokens rest

/-- U+FFFD replacement character. -/
def replChar : Char := Char.ofNat 0xFFFD

/-- UTF-8 continuation byte test. -/
def isCont (b : Nat) : Bool := 0x80 ≤ b && b ≤ 0xBF

/-- Decode a byte run as UTF-8, inserting U+FFFD at invalid sequences.  The
fuel argument only serves termination: every recursive call consumes at least
one byte, so any fuel of at least the list length gives the untruncated
decoding. -/
def utf8DecodeF : Nat → List Nat → List Char
  | 0, _ => []
  | _, [] => []
  | f + 1, b :: bs =>
    if b < 0x80 then Char.ofNat b :: utf8DecodeF f bs
    else if 0xC2 ≤ b && b ≤ 0xDF then
      match bs with
      | b2 :: bs2 =>
        if isCont b2 then Char.ofNat ((b % 32) * 64 + (b2 % 64)) :: utf8DecodeF f bs2
        else replChar :: utf8DecodeF f bs
      | [] => [replChar]
    else if 0xE0 ≤ b && b ≤ 0xEF then
      match bs with
      | b2 :: b3 :: bs3 =>
        let v := (b % 16) * 4096 + (b2 % 64) * 64 + (b3 % 64)
        if isCont b2 && isCont b3 && 0x800 ≤ v && (v < 0xD800 || 0xDFFF < v) then
          Char.ofNat v :: utf8DecodeF f bs3
        else replChar :: utf8DecodeF f bs
      | _ => [replChar]
    else if 0xF0 ≤ b && b ≤ 0xF4 then
      match bs with
      | b2 :: b3 :: b4 :: bs4 =>
        let v := (b % 8) * 262144 + (b2 % 64) * 4096 + (b3 % 64) * 64 + (b4 % 64)
        if isCont b2 && isCont b3 && isCont b4 && 0x10000 ≤ v && v ≤ 0x10FFFF then
          Char.ofNat v :: utf8DecodeF f bs4
        else replChar :: utf8DecodeF f bs
      | _ => [replChar]
    else replChar :: utf8DecodeF f bs

/-- UTF-8 decoding with errors="replace". -/
def utf8Decode (bs : List Nat) : List Char := utf8DecodeF bs.length bs

/-- Split a leading run of escape bytes from a token list. -/
def takeBytes : List (Sum Char Nat) → (List Nat × List (Sum Char Nat))
  | Sum.inr b :: rest =>
    let p := takeBytes rest
    (b :: p.1, p.2)
  | l => ([], l)

/-- Rebuild the decoded character list from the token stream.  The fuel
argument only serves termination: every step consumes at least one token,
so fuel of at least the token count gives the full decoding. -/
def decodeTokensF : Nat → List (Sum Char Nat) → List Char
  | 0, _ => []
  | _, [] => []
  | f + 1, Sum.inl c :: rest => c :: decodeTokensF f rest
  | f + 1, Sum.inr b :: rest =>
    let p := takeBytes rest
    utf8Decode (b :: p.1) ++ decodeTokensF f p.2

/-- Decode a token stream. -/
def decodeTokens (l : List (Sum Char Nat)) : List Char := decodeTokensF (l.length + 1) l

/-- `urllib.parse.unquote` (UTF-8, errors="replace"). -/
def unquote (s : String) : String := ⟨decodeTokens (pctTokens s.data)⟩

/-! ### Leftmost regex search

`re.search` semantics are modelled by trying a position matcher at every
suffix of the subject, left to right; the matcher of each regex implements
that regex's behaviour at one starting position.
-/

/-- Leftmost search: try the position matcher at each suffix in turn. -/
def scanFor (m : List Char → Option α) : List Char → Option α
  | [] => m []
  | c :: cs =>
    match m (c :: cs) with
    | some r => some r
    | none => scanFor m cs

/-- `[- ]?(\d+)` after a matched literal: an optional single `-`/space
separator followed by a nonempty digit run (the captured group). -/
def sepDigits (cs : List Char) : Option (List Char) :=
  let cs1 := match cs with
             | c :: rest => if c = '-' || c = ' ' then rest else c :: rest
             | [] => []
  let ds := cs1.takeWhile isDig
  if ds.isEmpty then none else some ds

/-- Match one of the alternative literals at this position, returning the
remainder (the literals have pairwise distinct first characters, so at most
one can match). -/
def litAlt (lits : List String) (cs : List Char) : Option (List Char) :=
  match lits with
  | [] => none
  | l :: ls =>
    if l.data.isPrefixOf cs then some (cs.drop l.data.length) else litAlt ls cs

/-- Position matcher for `(?:part|الجزء|جزء)[- ]?(\d+)` (group 1 digits). -/
def partAt (cs : List Char) : Option (List Char) :=
  match litAlt ["part", "الجزء", "جزء"] cs with
  | some rest => sepDigits rest
  | none => none

/-- Position matcher for the `p(\d+)` alternative of the season-part regex
(the subject is already lowercased, so `p` is matched literally). -/
def partShortAt (cs : List Char) : Option (List Char) :=
  match cs with
  | 'p' :: rest =>
    let ds := rest.takeWhile isDig
    if ds.isEmpty then none else some ds
  | _ => none

/-- Position matcher for the full season-part regex
`(?:part|الجزء|جزء)[- ]?(\d+)|p(\d+)`, alternatives in regex order. -/
def partFullAt (cs : List Char) : Option (List Char) :=
  match partAt cs with
  | some ds => some ds
  | none => partShortAt cs

/-! ### Text normalizer (scraper.py lines 43-129) -/

/-- Position matcher for `(\d+(?:\.\d+)?)`: a nonempty digit run, optionally
followed by a dot and a further nonempty digit run, as a rational. -/
def numAt (cs : List Char) : Option ℚ :=
  let ds := cs.takeWhile isDig
  if ds.isEmpty then none
  else
    let rest := cs.drop ds.length
    let iv : ℚ := (natOfDigits ds : ℚ)
    match rest with
    | '.' :: r2 =>
      let fs := r2.takeWhile isDig
      if fs.isEmpty then some iv
      else some (iv + (natOfDigits fs : ℚ) / ((10 : ℚ) ^ fs.length))
    | _ => some iv

/-- Leftmost `re.search(r'(\d+(?:\.\d+)?)', ·)`. -/
def numScan (cs : List Char) : Option ℚ := scanFor numAt cs

/-- `parse_episode_number` (scraper.py:43).  Python returns a float; the
decimal values it parses are modelled exactly as rationals. -/
def parse_episode_number (ep_str : String) : ℚ :=
  if ep_str = "" then 99999
  else
    let t := stripStr ep_str
    if lowerStr t = "special" || t = "0" then 0
    else
      match numScan t.data with
      | some q => q
      | none => 99999

/-- The Arabic ordinal table of `extract_season_number`, in dict insertion
order (scraper.py:77-101). -/
def arabicOrdinals : List (String × Nat) :=
  [("الحادي عشر", 11), ("حادي عشر", 11),
   ("الثاني عشر", 12), ("ثاني عشر", 12),
   ("الثالث عشر", 13), ("ثالث عشر", 13),
   ("الرابع عشر", 14), ("رابع عشر", 14),
   ("الخامس عشر", 15), ("خامس عشر", 15),
   ("السادس عشر", 16), ("سادس عشر", 16),
   ("السابع عشر", 17), ("سابع عشر", 17),
   ("الثامن عشر", 18), ("ثامن عشر", 18),
   ("التاسع عشر", 19), ("تاسع عشر", 19),
   ("الحادي والعشرون", 21), ("حادي والعشرون", 21),
   ("الثاني والعشرون", 22), ("ثاني والعشرون", 22),
   ("العشرون", 20), ("عشرون", 20),
   ("العاشر", 10), ("عاشر", 10),
   ("التاسع", 9), ("تاسع", 9),
   ("الثامن", 8), ("ثامن", 8),
   ("السابع", 7), ("سابع", 7),
   ("السادس", 6), ("سادس", 6),
   ("الخامس", 5), ("خامس", 5),
   ("الرابع", 4), ("رابع", 4),
   ("الثالث", 3), ("ثالث", 3),
   ("الثاني", 2), ("ثاني", 2),
   ("الاول", 1), ("الأول", 1), ("اول", 1)]

/-- `sorted(arabic_ordinals.keys(), key=len, reverse=True)`: a stable sort by
descending key length (Python's sort is stable; so is insertion sort). -/
def ordinalsSorted : List (String × Nat) :=
  @List.insertionSort _ (fun a b => b.1.length ≤ a.1.length)
    (fun _ _ => Nat.decLe _ _) arabicOrdinals

/-- Position matcher for `(?:الموسم|season)[- ]?(\d+)`. -/
def seasonAlt1At (cs : List Char) : Option Nat :=
  match litAlt ["الموسم", "season"] cs with
  | some rest =>
    match sepDigits rest with
    | some ds => some (natOfDigits ds)
    | none => none
  | none => none

/-- `s(\d+)(?:$|/)`: `s`, a digit run, then end of subject or `/`. -/
def sDigitsEnd (cs : List Char) : Option Nat :=
  match cs with
  | 's' :: rest =>
    let ds := rest.takeWhile isDig
    if ds.isEmpty then none
    else
      match rest.drop ds.length with
      | [] => some (natOfDigits ds)
      | '/' :: _ => some (natOfDigits ds)
      | _ => none
  | _ => none

/-- Position matcher for `(?:^|/)s(\d+)(?:$|/)`; `isStart` records whether
this position is the start of the subject (for the `^` anchor). -/
def seasonAlt2At (isStart : Bool) (cs : List Char) : Option Nat :=
  match (if isStart then sDigitsEnd cs else none) with
  | some n => some n
  | none =>
    match cs with
    | '/' :: rest => sDigitsEnd rest
    | _ => none

/-- Leftmost search for `(?:الموسم|season)[- ]?(\d+)|(?:^|/)s(\d+)(?:$|/)`,
returning the first non-None group of the leftmost match. -/
def seasonSearch : Bool → List Char → Option Nat
  | isStart, cs =>
    match seasonAlt1At cs with
    | some n => some n
    | none =>
      match seasonAlt2At isStart cs with
      | some n => some n
      | none =>
        match cs with
        | [] => none
        | _ :: rest => seasonSearch false rest

/-- The normalization prefix of `extract_season_number` (scraper.py:65-68):
URL-decode, lowercase, then map separators to spaces. -/
def seasonNormalize (text : String) : String :=
  ⟨(lowerStr (unquote text)).data.map (fun c => if c = '-' || c = '_' then ' ' else c)⟩

/-- `extract_season_number` (scraper.py:61). -/
def extract_season_number (text : String) : Nat :=
  let tn := seasonNormalize text
  if containsSub tn "final" || containsSub tn "نهائي" || containsSub tn "الأخير" then
    match scanFor partAt tn.data with
    | some ds => 100 + natOfDigits ds
    | none => 100
  else
    match ordinalsSorted.find? (fun p => containsSub tn p.1) with
    | some p => p.2
    | none =>
      match seasonSearch true tn.data with
      | some n => n
      | none => 1

/-- `extract_season_part` (scraper.py:115). -/
def extract_season_part (text : String) : Option String :=
  let t := lowerStr (unquote text)
  match scanFor partFullAt t.data with
  | some ds => some ("Part " ++ (⟨ds⟩ : String))
  | none =>
    if containsSub t "الجزء الثاني" || containsSub t "part 2" || containsSub t "cour 2" then
      some "Part 2"
    else if containsSub t "الجزء الاول" || containsSub t "part 1" || containsSub t "cour 1" then
      some "Part 1"
    else none

/-! ### Data model (spec §3, dicts built in scraper.py)

Records keep the dict keys of the source.  Fields the claims never inspect
(opportunistic metadata such as year, rating, poster text) are omitted from
the embedding.
-/

/-- A resolved server entry as built by `get_servers` (scraper.py:824-829). -/
structure StreamServer where
  name : String
  server_number : Nat
  embed_url : String
  video_url : Option String
  deriving DecidableEq, Repr

/-- An episode dict as built by `_parse_episode_link` (scraper.py:742-749). -/
structure EpisodeRec where
  episode_number : String
  display_number : String
  title : String
  url : String
  is_special : Bool
  servers : List StreamServer
  deriving DecidableEq, Repr

/-- A season dict as built by `get_series_details` (scraper.py:389-396). -/
structure SeasonRec where
  season_number : Nat
  season_part : Option String
  display_label : String
  url : String
  poster : Option String
  episodes : List EpisodeRec
  deriving DecidableEq, Repr

/-- Sort key of the crawl's final sort (scraper.py:647). -/
def epKey (e : EpisodeRec) : ℚ := parse_episode_number e.episode_number

/-- Comparison used by `all_episodes.sort(key=...)`. -/
def epLe (a b : EpisodeRec) : Prop := epKey a ≤ epKey b

instance : DecidableRel epLe := fun a b => inferInstanceAs (Decidable (epKey a ≤ epKey b))

instance : IsTotal EpisodeRec epLe := ⟨fun a b => le_total (epKey a) (epKey b)⟩

instance : IsTrans EpisodeRec epLe := ⟨fun _ _ _ h1 h2 => le_trans h1 h2⟩

/-- Python `list.sort` with key `parse_episode_number`: a stable sort by
`epKey` (Python's sort is stable, and so is insertion sort). -/
def sortEpisodes (l : List EpisodeRec) : List EpisodeRec := List.insertionSort epLe l

/-! ### Script deobfuscator: packer reversal (processor.py:16-32) -/

/-- Word-constituent characters for the regex `\b` boundary (`\w`), on the
ASCII range used by packer payloads. -/
def isWordChar (c : Char) : Bool := c.isAlphanum || c = '_'

/-- Word test on an optional neighbouring character (out of range counts as
a non-word position). -/
def wordOpt : Option Char → Bool
  | some c => isWordChar c
  | none => false

/-- `digits[d]` of `to_base`, `d < 36`. -/
def digitChar36 (d : Nat) : Char :=
  if d < 10 then Char.ofNat (48 + d) else Char.ofNat (87 + d)

/-- Digit-emitting loop of `to_base`; the fuel argument only serves
termination and never runs out for radix ≥ 2 (for radix ≤ 1 the Python
loop would not terminate at all). -/
def toBaseLoop : Nat → Nat → Nat → List Char → List Char
  | 0, _, _, acc => acc
  | f + 1, n, b, acc =>
    if n = 0 then acc else toBaseLoop f (n / b) b (digitChar36 (n % b) :: acc)

/-- `to_base` of `VidTubeProcessor._unpack` (processor.py:17-24). -/
def to_base (n b : Nat) : String :=
  if n = 0 then "0" else ⟨toBaseLoop (n + 1) n b []⟩

/-- Whether `\b tok \b` matches at the current position: `t0 :: tt` is the
(nonempty) token, `prev` the character just before this position in the
subject, `c :: cs` the remaining subject. -/
def wordMatchAt (t0 : Char) (tt : List Char) (prev : Option Char) (c : Char)
    (cs : List Char) : Bool :=
  (t0 :: tt).isPrefixOf (c :: cs)
    && (wordOpt prev != isWordChar t0)
    && (isWordChar (tt.getLastD t0) != wordOpt ((cs.drop tt.length).head?))

/-- `re.sub(r'\b tok \b', rep, ·)`: scan left to right, replacing each
whole-word occurrence and resuming after the matched text of the original
subject. -/
def wordSubAux (t0 : Char) (tt rep : List Char) : Nat → Option Char → List Char → List Char
  | 0, _, l => l
  | _ + 1, _, [] => []
  | f + 1, prev, c :: cs =>
    if wordMatchAt t0 tt prev c cs then
      rep ++ wordSubAux t0 tt rep f (some (tt.getLastD t0)) (cs.drop tt.length)
    else
      c :: wordSubAux t0 tt rep f (some c) cs

/-- Whole-word substitution; an empty token never arises (`to_base` always
returns at least one digit). -/
def wordSub (tok rep p : List Char) : List Char :=
  match tok with
  | [] => p
  | t0 :: tt => wordSubAux t0 tt rep (p.length + 1) none p

/-- Whether the subject contains a whole-word occurrence of the token,
scanning exactly like `wordSubAux`. -/
def hasWordOccAux (t0 : Char) (tt : List Char) : Option Char → List Char → Bool
  | _, [] => false
  | prev, c :: cs =>
    if wordMatchAt t0 tt prev c cs then true
    else hasWordOccAux t0 tt (some c) cs

/-- Whole-word occurrence test. -/
def hasWordOcc (tok s : List Char) : Bool :=
  match tok with
  | [] => false
  | t0 :: tt => hasWordOccAux t0 tt none s

/-- One iteration of the `_unpack` loop at index `i`: substitute the
whole-word radix token of `i` with keyword `k[i]` when that keyword exists
and is truthy. -/
def unpackStep (a : Nat) (k : List String) (acc : List Char) (i : Nat) : List Char :=
  match k[i]? with
  | some kw => if kw = "" then acc else wordSub (to_base i a).data kw.data acc
  | none => acc

/-- `VidTubeProcessor._unpack` (processor.py:16-32): substitute, from the
highest token index down to zero, the whole-word radix encoding of each
index with its keyword (skipping absent or empty keywords). -/
def unpack (p : String) (a c : Nat) (k : List String) : String :=
  ⟨(List.range c).reverse.foldl (unpackStep a k) p.data⟩

/-- No whole-word radix token of a substitutable index occurs in `s`. -/
def noResidual (a c : Nat) (k : List String) (s : String) : Bool :=
  (List.range c).all fun i =>
    match k[i]? with
    | some kw => kw = "" || !(hasWordOcc (to_base i a).data s.data)
    | none => true

/-! ### Server poller (`get_servers`, scraper.py:794-835)

The AJAX endpoint and the embed-page fetches inside `VidTubeProcessor.extract`
are modelled by an environment: `slot id i` is the response of the per-slot
POST `{id, i}` (`.error` for a transport failure), and `extract embed ref` is
the stream URL `VidTubeProcessor(...).extract(embed, referer=ref)` would
resolve.
-/

/-- Response of one per-slot AJAX POST: HTTP status and the `src` of the
first `<iframe>` of the body, if any. -/
structure SlotResp where
  status : Nat
  iframeSrc : Option String
  deriving DecidableEq, Repr

/-- Network environment of `get_servers`. -/
structure ServerEnv where
  baseUrl : String
  slot : String → Nat → Except Unit SlotResp
  extract : String → Option String → Option String

/-- The vidtube host family accepted by `_extract_vidtube_url`
(scraper.py:760). -/
def vidtubeDomains : List String := ["vidtube.one", "vidtube.pro", "vidtube.me", "vidtube.to"]

/-- The referer loop of `_extract_vidtube_url` (scraper.py:768-773): try each
truthy referer, then a final attempt with no referer. -/
def tryReferers (env : ServerEnv) (embed : String) : List String → Option String
  | [] => env.extract embed none
  | r :: rs =>
    if r ≠ "" then
      match env.extract embed (some r) with
      | some v => some v
      | none => tryReferers env embed rs
    else tryReferers env embed rs

/-- `_extract_vidtube_url` (scraper.py:756-775). -/
def extractVidtubeUrl (env : ServerEnv) (embed : String) (referers : List String) :
    Option String :=
  if vidtubeDomains.any (fun d => containsSub (lowerStr embed) d) then
    tryReferers env embed referers
  else none

/-- The decision chain of one iteration of the `get_servers` loop
(scraper.py:801-833): swallowed transport failure, status check, iframe
presence, truthy `src`, vidtube host check, then stream extraction with the
prioritized referer list.  `some (embed, video)` means the slot resolves. -/
def slotOutcome (env : ServerEnv) (content_id referer : String) (i : Nat) :
    Option (String × String) :=
  match env.slot content_id i with
  | .error _ => none
  | .ok resp =>
    if resp.status = 200 then
      match resp.iframeSrc with
      | some src =>
        if src ≠ "" then
          let embed := stripStr src
          if containsSub (lowerStr embed) "vidtube" then
            match extractVidtubeUrl env embed [env.baseUrl, referer, embed] with
            | some v => some (embed, v)
            | none => none
          else none
        else none
      | none => none
    else none

/-- The server record appended on a successful slot (scraper.py:824-829). -/
def mkServer (i : Nat) (embed video : String) : StreamServer :=
  { name := "VidTube Server " ++ toString (i + 1),
    server_number := i,
    embed_url := embed,
    video_url := some video }

/-- The polling loop: slots are tried in order and the loop breaks at the
first resolving slot. -/
def getServersGo (env : ServerEnv) (content_id referer : String) :
    List Nat → List StreamServer
  | [] => []
  | i :: rest =>
    match slotOutcome env content_id referer i with
    | some ev => [mkServer i ev.1 ev.2]
    | none => getServersGo env content_id referer rest

/-- `get_servers` (scraper.py:794-835). -/
def get_servers (env : ServerEnv) (content_id referer : String) (max_servers : Nat) :
    List StreamServer :=
  getServersGo env content_id referer (List.range max_servers)

/-! ### Content-ID resolver (`_extract_content_id`, scraper.py:837-903)

The parsed document is modelled by the projections the cascade inspects, in
document order.
-/

/-- Parsed-document projections used by `_extract_content_id`. -/
structure PageDoc where
  /-- `data-id` attribute of each `li` matched by the three server-list
  selectors, selector order then document order (`none` = attribute absent). -/
  serverLiDataIds : List (Option String)
  /-- `data-id` values of all elements carrying the attribute, document order. -/
  dataIdAttrs : List String
  /-- class list of every element of the document, document order. -/
  elemClassLists : List (List String)
  /-- `script.string` of each `<script>` tag, document order. -/
  scripts : List (Option String)
  /-- `href` of the `<link rel=shortlink>` element, if present. -/
  shortlinkHref : Option String
  /-- `data-id` of the element with `id="play"`, if present. -/
  playDataId : Option String
  deriving Repr

/-- Strategy 1: a truthy `data-id` on a known server-list container. -/
def strat1 (d : PageDoc) : Option String :=
  d.serverLiDataIds.findSome? fun o =>
    match o with
    | some v => if v ≠ "" then some v else none
    | none => none

/-- Strategy 2: any truthy all-digit `data-id` attribute. -/
def strat2 (d : PageDoc) : Option String :=
  d.dataIdAttrs.findSome? fun v =>
    if v ≠ "" && v.data.all isDig then some v else none

/-- Python `str.split(sep)` for a one-character separator. -/
def splitOnChar (sep : Char) : List Char → List (List Char)
  | [] => [[]]
  | c :: rest =>
    match splitOnChar sep rest with
    | [] => [[c]]
    | g :: gs => if c = sep then [] :: g :: gs else (c :: g) :: gs

/-- `re.compile(r"post-\d+")` searched inside one class string. -/
def hasPostNum (c : String) : Bool :=
  (scanFor (fun cs =>
    if ("post-".data.isPrefixOf cs) then
      match cs.drop 5 with
      | d :: _ => if isDig d then some () else none
      | [] => none
    else none) c.data).isSome

/-- Strategy 3: a WordPress `post-NNNN` class token (scraper.py:857-865):
among elements with a class matching `post-\d+`, scan all classes for one
starting with `post-` whose second dash-separated part is numeric. -/
def strat3 (d : PageDoc) : Option String :=
  d.elemClassLists.findSome? fun cls =>
    if cls.any hasPostNum then
      cls.findSome? fun c =>
        if "post-".data.isPrefixOf c.data then
          match (splitOnChar '-' c.data)[1]? with
          | some pid => if pid ≠ [] && pid.all isDig then some (⟨pid⟩ : String) else none
          | none => none
        else none
    else none

/-- Position matcher for `id["\']?\s*[:=]\s*["\']?(\d+)`. -/
def idNumAt (cs : List Char) : Option String :=
  match cs with
  | 'i' :: 'd' :: rest =>
    let r1 := match rest with
              | '"' :: r => r
              | '\'' :: r => r
              | r => r
    let r2 := r1.dropWhile isSpace
    match r2 with
    | c :: r3 =>
      if c = ':' || c = '=' then
        let r4 := r3.dropWhile isSpace
        let r5 := match r4 with
                  | '"' :: r => r
                  | '\'' :: r => r
                  | r => r
        let ds := r5.takeWhile isDig
        if ds.isEmpty then none else some ⟨ds⟩
      else none
    | [] => none
  | _ => none

/-- Position matcher for `p=(\d+)`. -/
def pEqNumAt (cs : List Char) : Option String :=
  match cs with
  | 'p' :: '=' :: rest =>
    let ds := rest.takeWhile isDig
    if ds.isEmpty then none else some ⟨ds⟩
  | _ => none

/-- Position matcher for `"post_id"\s*:\s*(\d+)`. -/
def postIdJsonAt (cs : List Char) : Option String :=
  if ("\"post_id\"".data).isPrefixOf cs then
    let r := (cs.drop 9).dropWhile isSpace
    match r with
    | ':' :: r2 =>
      let ds := (r2.dropWhile isSpace).takeWhile isDig
      if ds.isEmpty then none else some ⟨ds⟩
    | _ => none
  else none

/-- Position matcher for `var\s+post_id\s*=\s*(\d+)`. -/
def varPostIdAt (cs : List Char) : Option String :=
  if ("var".data).isPrefixOf cs then
    let r := cs.drop 3
    let sp := r.takeWhile isSpace
    if sp.isEmpty then none
    else
      let r2 := r.drop sp.length
      if ("post_id".data).isPrefixOf r2 then
        let r3 := (r2.drop 7).dropWhile isSpace
        match r3 with
        | '=' :: r4 =>
          let ds := (r4.dropWhile isSpace).takeWhile isDig
          if ds.isEmpty then none else some ⟨ds⟩
        | _ => none
      else none
  else none

/-- The four inline-script patterns, tried in source order on one script
body (scraper.py:869-886). -/
def scriptIdSearch (s : String) : Option String :=
  match scanFor idNumAt s.data with
  | some v => some v
  | none =>
    match scanFor pEqNumAt s.data with
    | some v => some v
    | none =>
      match scanFor postIdJsonAt s.data with
      | some v => some v
      | none => scanFor varPostIdAt s.data

/-- Strategy 4: id-assignment patterns inside inline scripts. -/
def strat4 (d : PageDoc) : Option String :=
  d.scripts.findSome? fun o =>
    match o with
    | some s => scriptIdSearch s
    | none => none

/-- Strategy 5: `p=NNN` in the shortlink href. -/
def strat5 (d : PageDoc) : Option String :=
  match d.shortlinkHref with
  | some href => if href ≠ "" then scanFor pEqNumAt href.data else none
  | none => none

/-- Strategy 6: `data-id` of the `id="play"` player div. -/
def strat6 (d : PageDoc) : Option String :=
  match d.playDataId with
  | some v => if v ≠ "" then some v else none
  | none => none

/-- `_extract_content_id` (scraper.py:837-903): the strategy cascade with
sequential early returns. -/
def extract_content_id (d : PageDoc) : Option String :=
  match strat1 d with
  | some v => some v
  | none =>
    match strat2 d with
    | some v => some v
    | none =>
      match strat3 d with
      | some v => some v
      | none =>
        match strat4 d with
        | some v => some v
        | none =>
          match strat5 d with
          | some v => some v
          | none => strat6 d

/-- First defined value of a list of options, in order. -/
def firstSome (l : List (Option α)) : Option α := l.findSome? id

/-! ### Orchestrator dispatch (`get_show_details`, scraper.py:273-290)

The movie-specific and series-specific paths perform network work; they are
modelled by an environment giving the value each path would return
(`seriesResult` takes the `show_type` argument).  The dispatcher additionally
returns the list of paths invoked, in order.
-/

/-- Which detail path was invoked. -/
inductive PathTag
  | movie
  | series
  deriving DecidableEq, Repr

/-- Result of `get_series_details(url, show_type)`: the details dict with its
`type` and `seasons` keys (`none` models a swallowed failure). -/
structure SeriesDetails where
  showType : String
  seasons : List SeasonRec
  deriving DecidableEq, Repr

/-- Result of `get_movie_details(url)`: the details dict with its `servers`
key (`none` models a swallowed failure). -/
structure MovieDetails where
  servers : List StreamServer
  deriving DecidableEq, Repr

/-- Environment of the dispatcher: what each path would return for the url. -/
structure DispatchEnv where
  movieResult : Option MovieDetails
  seriesResult : String → Option SeriesDetails

/-- The decoded url contains none of the movie/anime/series keywords tested
by `get_show_details`. -/
def noTypeKeyword (decoded : String) : Bool :=
  !containsSub decoded "فيلم" && !containsSub decoded "/movie/"
    && !containsSub decoded "انمي" && !containsSub decoded "/anime/"
    && !containsSub decoded "مسلسل" && !containsSub decoded "/series/"

/-- `get_show_details` (scraper.py:273-290), also reporting the invocation
order of the two paths. -/
def get_show_details (env : DispatchEnv) (url : String) :
    Option (Sum SeriesDetails MovieDetails) × List PathTag :=
  let decoded := unquote url
  if containsSub decoded "فيلم" || containsSub decoded "/movie/" then
    (env.movieResult.map Sum.inr, [PathTag.movie])
  else if containsSub decoded "انمي" || containsSub decoded "/anime/" then
    ((env.seriesResult "anime").map Sum.inl, [PathTag.series])
  else if containsSub decoded "مسلسل" || containsSub decoded "/series/" then
    ((env.seriesResult "series").map Sum.inl, [PathTag.series])
  else
    match env.seriesResult "series" with
    | some sd =>
      if !sd.seasons.isEmpty then (some (Sum.inl sd), [PathTag.series])
      else (env.movieResult.map Sum.inr, [PathTag.series, PathTag.movie])
    | none => (env.movieResult.map Sum.inr, [PathTag.series, PathTag.movie])

/-! ### Pagination crawler (`_parse_season`, scraper.py:511-667)

Page fetches are modelled by an environment: `fetch url` is the response the
GET of that url would produce (`.error` = transport failure / timeout).  A
fetched page is modelled by the projections the crawler inspects: HTTP
status, the episode anchors produced by the selector cascade (methods 1-4,
in document order), the presence of a next-page control, and the poster of
the landing page.  `_parse_episode_link` builds an episode record out of one
anchor's url/title/text; it is kept as an environment function so the crawl
theorems hold for every record shape it can produce.
-/

/-- An episode anchor as consumed by `_parse_episode_link`. -/
structure AnchorRec where
  href : String
  titleAttr : String
  text : String
  deriving DecidableEq, Repr

/-- One fetched listing page. -/
structure CrawlPage where
  status : Nat
  anchors : List AnchorRec
  hasNext : Bool
  poster : Option String
  deriving Repr

/-- Crawl environment. -/
structure CrawlEnv where
  fetch : String → Except Unit CrawlPage
  parseLink : AnchorRec → Option EpisodeRec

/-- Per-page anchor processing (scraper.py:614-623): skip falsy or already
seen hrefs, mark the href seen before parsing, and keep the parsed records
in anchor order. -/
def collectNew (parse : AnchorRec → Option EpisodeRec) :
    List AnchorRec → List String → List String × List EpisodeRec
  | [], seen => (seen, [])
  | a :: rest, seen =>
    if a.href = "" || seen.contains a.href then collectNew parse rest seen
    else
      let p := collectNew parse rest (a.href :: seen)
      match parse a with
      | some e => (p.1, e :: p.2)
      | none => (p.1, p.2)

/-- The url requested for a given page number (scraper.py:552-558). -/
def pageUrl (base firstTry : String) (fb : Bool) (page : Nat) : String :=
  if page = 1 then (if fb then base else firstTry)
  else (if fb then base else firstTry) ++ "/?page=" ++ toString page

/-- Suffix test (Python `str.endswith`). -/
def strEndsWith (s suf : String) : Bool := suf.data.reverse.isPrefixOf s.data.reverse

/-- Python `url.rstrip('/')`. -/
def rstripSlash (s : String) : String :=
  ⟨(s.data.reverse.dropWhile (fun c => c = '/')).reverse⟩

/-- The pagination loop of `_parse_season` (scraper.py:550-644).  The fuel
argument only serves termination; the loop runs at most 51 iterations
(50 pages plus one `/list` 404 fallback retry of page 1), so any fuel above
that gives the loop's exact behaviour.  `.error` is the re-raised first-page
failure. -/
def crawlLoop (env : CrawlEnv) (base firstTry : String) (useList : Bool) :
    Nat → Nat → Bool → List String → List EpisodeRec → Except Unit (List EpisodeRec)
  | 0, _, _, _, acc => .ok acc
  | f + 1, page, fb, seen, acc =>
    if page > 50 then .ok acc
    else
      match env.fetch (pageUrl base firstTry fb page) with
      | .error _ => if page = 1 then .error () else .ok acc
      | .ok pg =>
        if pg.status = 404 && page = 1 && useList && !fb then
          crawlLoop env base firstTry useList f 1 true seen acc
        else if 400 ≤ pg.status then
          (if page = 1 then .error () else .ok acc)
        else if pg.anchors.isEmpty then .ok acc
        else
          let p := collectNew env.parseLink pg.anchors seen
          if p.2.isEmpty then .ok acc
          else if !pg.hasNext then .ok (acc ++ p.2)
          else crawlLoop env base firstTry useList f (page + 1) fb p.1 (acc ++ p.2)

/-- The season record returned by `_parse_season` (scraper.py:657-661). -/
structure SeasonData where
  season_number : Nat
  poster : Option String
  episodes : List EpisodeRec
  deriving DecidableEq, Repr

/-- `_parse_season` (scraper.py:511-667).  Its outer `except` turns any
escalated failure — a first-page fetch failure, or a failure of the final
poster fetch — into `None`. -/
def parseSeason (env : CrawlEnv) (season_url : String) : Option SeasonData :=
  let base := rstripSlash season_url
  let useList := !strEndsWith base "/list"
  let firstTry := if useList then base ++ "/list" else base
  match crawlLoop env base firstTry useList 200 1 false [] [] with
  | .error _ => none
  | .ok eps =>
    match env.fetch (base ++ "/") with
    | .error _ => none
    | .ok pg =>
      some { season_number := extract_season_number season_url,
             poster := pg.poster,
             episodes := sortEpisodes eps }

/-- `fetch_season_episodes` (scraper.py:932-946).  The result also carries
the caller's season object after the call (mutated in place in Python) and
the number of `_parse_season` crawls performed. -/
def fetchSeasonEpisodes (env : CrawlEnv) (season : SeasonRec) :
    List EpisodeRec × SeasonRec × Nat :=
  if !season.episodes.isEmpty then (season.episodes, season, 0)
  else if season.url = "" then ([], season, 0)
  else
    match parseSeason env season.url with
    | some sd =>
      if !sd.episodes.isEmpty then
        (sd.episodes, { season with episodes := sd.episodes, poster := sd.poster }, 1)
      else ([], season, 1)
    | none => ([], season, 1)

/-- `_normalize_watch_url` (scraper.py:785-792). -/
def normalizeWatchUrl (url : String) : String :=
  if url = "" then url
  else if strEndsWith url "/watch/" then url
  else if strEndsWith url "/" then url ++ "watch/"
  else url ++ "/watch/"

/-- Environment of `fetch_episode_servers`: `encode` abstracts the pure
percent-quoting `_encode_url`, `extractId` the network-backed
`_extract_content_id` (fetch of the url plus the strategy cascade),
`serverEnv` this scraper's session and `freshServerEnv` the session of the
freshly constructed retry scraper (scraper.py:965). -/
structure EpServerEnv where
  encode : String → String
  extractId : String → Option String
  serverEnv : ServerEnv
  freshServerEnv : ServerEnv

/-- `fetch_episode_servers` (scraper.py:948-968).  The result also carries
the caller's episode object after the call and the number of `get_servers`
polls performed. -/
def fetchEpisodeServers (env : EpServerEnv) (episode : EpisodeRec) :
    List StreamServer × EpisodeRec × Nat :=
  if !episode.servers.isEmpty then (episode.servers, episode, 0)
  else if episode.url = "" then ([], episode, 0)
  else
    let encoded := env.encode episode.url
    let watch := normalizeWatchUrl encoded
    match (match env.extractId watch with
           | some i => some i
           | none => env.extractId encoded) with
    | none => ([], episode, 0)
    | some eid =>
      let srv := get_servers env.serverEnv eid watch 10
      if srv.isEmpty then
        let srv2 := get_servers env.freshServerEnv eid watch 10
        (srv2, { episode with servers := srv2 }, 2)
      else (srv, { episode with servers := srv }, 1)

/-! ### Search (`search` / `_parse_search_result`, scraper.py:163-271)

A raw result box is modelled by the projections `_parse_search_result`
inspects for the fields the claims are about (link href, title-element text,
anchor title attribute); the opportunistic metadata block is not modelled.
-/

/-- Python `" ".join(text.strip().split())`. -/
def cleanText (s : String) : String :=
  String.intercalate " " ((s.data.splitOnP isSpace).map (fun l => (⟨l⟩ : String))
    |>.filter (fun w => w ≠ ""))

/-- One `.Small--Box` result item. -/
structure SearchItem where
  linkHref : Option String
  titleText : Option String
  linkTitleAttr : Option String
  deriving DecidableEq, Repr

/-- A parsed search hit (title, url and content type keys of the dict). -/
structure SearchHit where
  title : String
  url : String
  type : String
  deriving DecidableEq, Repr

/-- `_parse_search_result` (scraper.py:195-271), restricted to the fields the
claims inspect. -/
def parseSearchResult (item : SearchItem) : Option SearchHit :=
  match item.linkHref with
  | none => none
  | some url =>
    if url = "" then none
    else
      let title := match item.titleText with
        | some t => cleanText t
        | none => cleanText (item.linkTitleAttr.getD "Unknown")
      let decoded := lowerStr (unquote url)
      let show_type :=
        if containsSub decoded "انمي" || containsSub decoded "/anime/"
            || containsSub title "انمي" || containsSub (lowerStr title) "anime" then "anime"
        else if containsSub decoded "مسلسل" || containsSub decoded "/series/"
            || containsSub title "مسلسل" || containsSub (lowerStr title) "series" then "series"
        else if containsSub decoded "فيلم" || containsSub decoded "/movie/"
            || containsSub title "فيلم" || containsSub (lowerStr title) "movie" then "movie"
        else "movie"
      some { title := title, url := url, type := show_type }

/-- The skip test of the `search` result loop (scraper.py:185):
`content_type and result.get("type") != content_type`, with Python
truthiness of the argument. -/
def typeMismatch (content_type : Option String) (r : SearchHit) : Bool :=
  match content_type with
  | some c => c ≠ "" && r.type ≠ c
  | none => false

/-- The result loop of `search` (scraper.py:182-187): parse each box and
drop hits whose type differs from a truthy `content_type` argument. -/
def searchFilter (content_type : Option String) : List SearchItem → List SearchHit
  | [] => []
  | item :: rest =>
    match parseSearchResult item with
    | some r =>
      if typeMismatch content_type r then searchFilter content_type rest
      else r :: searchFilter content_type rest
    | none => searchFilter content_type rest

/-- `search` (scraper.py:163-193): the AJAX response is modelled by
`resp` (`.error` = transport failure, swallowed into an empty result). -/
def search (resp : Except Unit (List SearchItem)) (content_type : Option String) :
    List SearchHit :=
  match resp with
  | .error _ => []
  | .ok items => searchFilter content_type items

/-! ### Spec-side predicates

Predicates written from the specification's wording (not from the code), to
compare the code's behaviour against the claims.
-/

/-- Modelled from the spec: "explicit part marker (two script variants)" or
a "cour 1/2 synonym" — an occurrence of `part`/`الجزء`/`جزء` followed by an
optional separator and digits, or one of the word synonyms for part one/two. -/
def specPartMarker (t : String) : Bool :=
  let s := lowerStr (unquote t)
  (scanFor partAt s.data).isSome
    || (containsSub s "الجزء الثاني" || containsSub s "part 2" || containsSub s "cour 2")
    || (containsSub s "الجزء الاول" || containsSub s "part 1" || containsSub s "cour 1")

/-- Modelled from the spec: a "special or non-numeric" episode entry — the
special flag is set, or no number can be read from the episode_number. -/
def specialOrNonNumeric (e : EpisodeRec) : Bool :=
  e.is_special || (numScan (stripStr e.episode_number).data).isNone

/-- Numeric value of an episode entry (0 when none can be read). -/
def numValOf (e : EpisodeRec) : ℚ := (numScan (stripStr e.episode_number).data).getD 0

/-- Strict ascent by numeric value along a list. -/
def chainStrict : List EpisodeRec → Bool
  | [] => true
  | [_] => true
  | a :: b :: rest => decide (numValOf a < numValOf b) && chainStrict (b :: rest)

/-- Modelled from the spec: "sorted strictly ascending by numeric
episode_number, with all special and non-numeric entries sorted last" — some
split point `k` has all non-special numeric entries before it, strictly
ascending, and only special/non-numeric entries after it. -/
def claimSortedSpecialsLast (l : List EpisodeRec) : Bool :=
  (List.range (l.length + 1)).any fun k =>
    (l.take k).all (fun e => !specialOrNonNumeric e)
      && chainStrict (l.take k)
      && (l.drop k).all specialOrNonNumeric

/-! ### Concrete instances used by counterexamples and witnesses -/

/-- A plain numeric episode. -/
def epA : EpisodeRec :=
  { episode_number := "1", display_number := "1", title := "", url := "https://e.x/ep1",
    is_special := false, servers := [] }

/-- A numberless special episode, exactly as `_parse_episode_link` builds
one (`episode_number = special_type`). -/
def epS : EpisodeRec :=
  { episode_number := "Special", display_number := "[Special]", title := "",
    url := "https://e.x/sp", is_special := true, servers := [] }

/-- Anchor of the numeric episode. -/
def aA : AnchorRec := { href := "https://e.x/ep1", titleAttr := "", text := "" }

/-- Anchor of the special episode. -/
def aS : AnchorRec := { href := "https://e.x/sp", titleAttr := "", text := "" }

/-- The single listing page of `envC2`. -/
def pageC2 : CrawlPage :=
  { status := 200, anchors := [aA, aS], hasNext := false, poster := none }

/-- A crawl environment with one page listing a numeric episode and then a
special episode. -/
def envC2 : CrawlEnv :=
  { fetch := fun _ => .ok pageC2,
    parseLink := fun a =>
      if a.href = "https://e.x/ep1" then some epA
      else if a.href = "https://e.x/sp" then some epS
      else none }

/-- A crawl environment where every fetch fails. -/
def envFail : CrawlEnv :=
  { fetch := fun _ => .error (), parseLink := fun _ => none }

/-- A crawl environment where every page is an empty listing. -/
def envEmpty : CrawlEnv :=
  { fetch := fun _ => .ok { status := 200, anchors := [], hasNext := false, poster := none },
    parseLink := fun _ => none }

/-- A season object with an unpopulated episode list. -/
def s0 : SeasonRec :=
  { season_number := 1, season_part := none, display_label := "Season 1",
    url := "https://e.x/season-1", poster := none, episodes := [] }

/-- The first url requested by a crawl of `url` (the `/list` variant unless
the base already ends in `/list`). -/
def crawlFirstTry (url : String) : String :=
  let base := rstripSlash url
  if !strEndsWith base "/list" then base ++ "/list" else base

/-- Whether a crawl of `url` starts in `/list` mode. -/
def crawlUseList (url : String) : Bool := !strEndsWith (rstripSlash url) "/list"

/-- A server environment where slot 0 carries a vidtube embed that yields no
stream, slot 1 carries one that resolves, and later slots fail. -/
def envSrv : ServerEnv :=
  { baseUrl := "https://e.x",
    slot := fun _ i =>
      if i = 0 then .ok { status := 200, iframeSrc := some "https://vidtube.one/embed/a" }
      else if i = 1 then .ok { status := 200, iframeSrc := some "https://vidtube.one/embed/b" }
      else .error (),
    extract := fun embed _ =>
      if embed = "https://vidtube.one/embed/b" then some "https://cdn.e.x/v.mp4" else none }

/-- A dispatch environment whose series path yields one season. -/
def envD : DispatchEnv :=
  { movieResult := some { servers := [] },
    seriesResult := fun _ => some { showType := "series", seasons := [s0] } }

/-- A url whose decoded form contains no movie/anime/series keyword. -/
def urlD : String := "https://e.x/show/abc"

/-- A document exposing the identifier both as a `post-42` class token and
as an inline-script assignment. -/
def docW : PageDoc :=
  { serverLiDataIds := [none],
    dataIdAttrs := ["abc"],
    elemClassLists := [["single", "post-42"]],
    scripts := [some "var post_id = 99;"],
    shortlinkHref := some "https://t.co/?p=77",
    playDataId := some "88" }

/-- An episode-server environment that resolves a content id and servers. -/
def envEp : EpServerEnv :=
  { encode := fun u => u,
    extractId := fun u => if u = "https://e.x/ep1/watch/" then some "42" else none,
    serverEnv := envSrv,
    freshServerEnv := envSrv }

/-- A movie-typed and a series-typed search box. -/
def itemM : SearchItem :=
  { linkHref := some "https://e.x/movie/m1/", titleText := some "Cool Movie",
    linkTitleAttr := none }

/-- A series search box. -/
def itemS : SearchItem :=
  { linkHref := some "https://e.x/series/s1/", titleText := some "Cool Series",
    linkTitleAttr := none }

/-! ## Helper lemmas -/

theorem scanFor_mono {α : Type} {m : List Char → Option α} {P : α → Prop}
    (hm : ∀ l r, m l = some r → P r) :
    ∀ cs r, scanFor m cs = some r → P r := by
  intro cs
  induction cs with
  | nil => intro r h; exact hm [] r h
  | cons c cs ih =>
    intro r h
    unfold scanFor at h
    cases hh : m (c :: cs) with
    | some v => rw [hh] at h; cases h; exact hm _ _ hh
    | none => rw [hh] at h; exact ih r h

theorem sepDigits_some {cs ds : List Char} (h : sepDigits cs = some ds) :
    ds ≠ [] ∧ ds.all isDig = true := by
  simp only [sepDigits] at h
  split at h
  · exact absurd h (by simp)
  · rename_i hne
    rw [Option.some.injEq] at h
    subst h
    refine ⟨?_, List.all_takeWhile⟩
    simpa [List.isEmpty_iff] using hne

theorem partAt_some {cs ds : List Char} (h : partAt cs = some ds) :
    ds ≠ [] ∧ ds.all isDig = true := by
  simp only [partAt] at h
  split at h
  · exact sepDigits_some h
  · exact absurd h (by simp)

theorem partShortAt_some {cs ds : List Char} (h : partShortAt cs = some ds) :
    ds ≠ [] ∧ ds.all isDig = true := by
  simp only [partShortAt] at h
  split at h
  · split at h
    · exact absurd h (by simp)
    · rename_i hne
      rw [Option.some.injEq] at h
      subst h
      refine ⟨?_, List.all_takeWhile⟩
      simpa [List.isEmpty_iff] using hne
  · exact absurd h (by simp)

theorem partFullAt_some {cs ds : List Char} (h : partFullAt cs = some ds) :
    ds ≠ [] ∧ ds.all isDig = true := by
  unfold partFullAt at h
  split at h
  · rename_i heq
    cases h
    exact partAt_some heq
  · exact partShortAt_some h

/-- The leftmost search for an alternation succeeds exactly when the search
for one of the alternatives does. -/
theorem scanFor_partFull_isSome :
    ∀ cs : List Char,
      (scanFor partFullAt cs).isSome
        = ((scanFor partAt cs).isSome || (scanFor partShortAt cs).isSome) := by
  intro cs
  induction cs with
  | nil =>
    simp [scanFor, partFullAt]
    cases h : partAt [] with
    | some v => simp [h]
    | none => simp [h]
  | cons c cs ih =>
    unfold scanFor partFullAt
    cases h1 : partAt (c :: cs) with
    | some v => simp [h1]
    | none =>
      cases h2 : partShortAt (c :: cs) with
      | some v => simp [h1, h2]
      | none => simpa [h1, h2] using ih

/-! ## Claims -/

/-- C4, counterexample: `extract_season_part "ep2"` returns `"Part 2"` even
though `"ep2"` contains no explicit part marker in either script and no
cour synonym (the bare `p(\d+)` regex alternative fires inside the word),
refuting "for every text without such a marker it returns none". -/
theorem c4_part_counterexample :
    extract_season_part "ep2" = some "Part 2" ∧ specPartMarker "ep2" = false := by
  constructor
  · decide
  · decide

/-- C4, amended: `extract_season_part` returns a string `"Part N"` (`N` a
nonempty digit run) if and only if the text contains an explicit part
marker (in either script), a `"cour 1"`/`"cour 2"` synonym, or a bare `pN`
shorthand — the shorthand also fires inside unrelated words such as
`"ep2"`; for every text without any of these it returns none. -/
theorem c4_part_amended (t : String) :
    ((extract_season_part t).isSome
      = (specPartMarker t || (scanFor partShortAt (lowerStr (unquote t)).data).isSome))
    ∧ (∀ s, extract_season_part t = some s →
        ∃ ds : List Char, ds ≠ [] ∧ ds.all isDig = true ∧ s = "Part " ++ (⟨ds⟩ : String)) := by
  constructor
  · simp only [extract_season_part, specPartMarker]
    have hfull := scanFor_partFull_isSome (lowerStr (unquote t)).data
    cases hc : scanFor partFullAt (lowerStr (unquote t)).data with
    | some v =>
      rw [hc] at hfull
      simp only [Option.isSome_some, Bool.true_eq, Bool.or_eq_true] at hfull
      rcases hfull with hA | hB
      · simp [hA]
      · simp [hB]
    | none =>
      rw [hc] at hfull
      simp only [Option.isSome_none, Bool.false_eq, Bool.or_eq_false_iff] at hfull
      obtain ⟨hA, hB⟩ := hfull
      simp only [hA, hB, Bool.or_false, Bool.false_or]
      split
      · rename_i hsyn
        simp [hsyn]
      · rename_i hsyn
        rw [Bool.not_eq_true] at hsyn
        split
        · rename_i hsyn1
          simp [hsyn, hsyn1]
        · rename_i hsyn1
          rw [Bool.not_eq_true] at hsyn1
          simp [hsyn, hsyn1]
  · intro s h
    simp only [extract_season_part] at h
    split at h
    · rename_i ds heq
      rw [Option.some.injEq] at h
      obtain ⟨hne, hdig⟩ := scanFor_mono (fun l r hr => partFullAt_some hr) _ ds heq
      exact ⟨ds, hne, hdig, h.symm⟩
    · split at h
      · rw [Option.some.injEq] at h
        exact ⟨['2'], by simp, by decide, by rw [← h]; decide⟩
      · split at h
        · rw [Option.some.injEq] at h
          exact ⟨['1'], by simp, by decide, by rw [← h]; decide⟩
        · exact absurd h (by simp)

/-- C4, witness for the amended claim at `"part 3"`. -/
theorem c4_part_amended_witness :
    ∃ ds : List Char, ds ≠ [] ∧ ds.all isDig = true ∧ "Part 3" = "Part " ++ (⟨ds⟩ : String) :=
  (c4_part_amended "part 3").2 "Part 3" (by decide)

/-- C5: `extract_season_number` maps "The Final Season Part 2" to 102,
"Final Season Part 1" to 101, "One Piece" to 1 and "Breaking Bad Season 1"
to 1; whenever final-season phrasing is present the result is determined by
the part regex alone (100, or 100+N), so final-season detection preempts
plain-number detection; and when no final phrasing, no ordinal word and no
season/sN marker matches, the result defaults to 1. -/
theorem c5_season_number_inference :
    extract_season_number "The Final Season Part 2" = 102
    ∧ extract_season_number "Final Season Part 1" = 101
    ∧ extract_season_number "One Piece" = 1
    ∧ extract_season_number "Breaking Bad Season 1" = 1
    ∧ (∀ t : String, containsSub (seasonNormalize t) "final" = true →
        extract_season_number t =
          match scanFor partAt (seasonNormalize t).data with
          | some ds => 100 + natOfDigits ds
          | none => 100)
    ∧ (∀ t : String,
        containsSub (seasonNormalize t) "final" = false →
        containsSub (seasonNormalize t) "نهائي" = false →
        containsSub (seasonNormalize t) "الأخير" = false →
        ordinalsSorted.find? (fun p => containsSub (seasonNormalize t) p.1) = none →
        seasonSearch true (seasonNormalize t).data = none →
        extract_season_number t = 1) := by
  refine ⟨by decide, by decide, by decide, by decide, ?_, ?_⟩
  · intro t h
    simp [extract_season_number, h]
  · intro t h1 h2 h3 h4 h5
    simp [extract_season_number, h1, h2, h3, h4, h5]

/-- C5, witness: the final-season and default branches at the spec's own
examples. -/
theorem c5_season_number_witness :
    (containsSub (seasonNormalize "The Final Season Part 2") "final" = true
      ∧ extract_season_number "The Final Season Part 2" =
          match scanFor partAt (seasonNormalize "The Final Season Part 2").data with
          | some ds => 100 + natOfDigits ds
          | none => 100)
    ∧ (containsSub (seasonNormalize "One Piece") "final" = false
      ∧ extract_season_number "One Piece" = 1) :=
  ⟨⟨by decide, c5_season_number_inference.2.2.2.2.1 "The Final Season Part 2" (by decide)⟩,
   ⟨by decide, c5_season_number_inference.2.2.2.2.2 "One Piece" (by decide) (by decide)
      (by decide) (by decide) (by decide)⟩⟩

theorem wordSubAux_of_no_occ (t0 : Char) (tt rep : List Char) :
    ∀ (f : Nat) (cs : List Char) (prev : Option Char),
      hasWordOccAux t0 tt prev cs = false →
      wordSubAux t0 tt rep f prev cs = cs := by
  intro f
  induction f with
  | zero => intro cs prev _; rfl
  | succ f ih =>
    intro cs prev h
    cases cs with
    | nil => rfl
    | cons c cs =>
      simp only [hasWordOccAux] at h
      simp only [wordSubAux]
      cases hm : wordMatchAt t0 tt prev c cs with
      | true => simp [hm] at h
      | false =>
        simp only [hm, Bool.false_eq_true, reduceIte] at h ⊢
        exact congrArg (List.cons c) (ih cs (some c) h)

theorem wordSub_of_no_occ {tok s : List Char} (rep : List Char)
    (h : hasWordOcc tok s = false) : wordSub tok rep s = s := by
  cases tok with
  | nil => rfl
  | cons t0 tt =>
    exact wordSubAux_of_no_occ t0 tt rep (s.length + 1) s none h

theorem foldl_unpackStep_id (a : Nat) (k : List String) :
    ∀ (l : List Nat) (s : List Char),
      (∀ i ∈ l, ∀ kw, k[i]? = some kw → kw ≠ "" →
        hasWordOcc (to_base i a).data s = false) →
      l.foldl (unpackStep a k) s = s := by
  intro l
  induction l with
  | nil => intro s _; rfl
  | cons i l ih =>
    intro s h
    have hstep : unpackStep a k s i = s := by
      cases hk : k[i]? with
      | none => simp [unpackStep, hk]
      | some kw =>
        by_cases hkw : kw = ""
        · simp [unpackStep, hk, hkw]
        · simp only [unpackStep, hk, if_neg hkw]
          exact wordSub_of_no_occ kw.data (h i (by simp) kw hk hkw)
    rw [List.foldl_cons, hstep]
    exact ih s (fun j hj kw hk hkw => h j (by simp [hj]) kw hk hkw)

/-- C6, counterexample: `_unpack` is not idempotent for every input — with
payload "0", radix 36, count 2 and keywords ["1", "z"], the first pass
produces "1" (keyword of index 0), and a second pass turns that into "z"
(keyword of index 1), because a keyword may itself be a whole-word radix
token. -/
theorem c6_unpack_counterexample :
    unpack (unpack "0" 36 2 ["1", "z"]) 36 2 ["1", "z"] ≠ unpack "0" 36 2 ["1", "z"] := by
  decide

/-- C6, amended: the substitution is idempotent whenever its output contains
no whole-word radix token of an index with a truthy keyword (which the
counterexample shows can fail when keywords themselves are token words):
re-applying the substitution to such an output changes nothing. -/
theorem c6_unpack_amended (p : String) (a c : Nat) (k : List String)
    (h : noResidual a c k (unpack p a c k) = true) :
    unpack (unpack p a c k) a c k = unpack p a c k := by
  have hcond : ∀ i ∈ (List.range c).reverse, ∀ kw, k[i]? = some kw → kw ≠ "" →
      hasWordOcc (to_base i a).data (unpack p a c k).data = false := by
    intro i hi kw hk hkw
    rw [List.mem_reverse, List.mem_range] at hi
    simp only [noResidual] at h
    have hall := (List.all_eq_true.mp h) i (List.mem_range.mpr hi)
    simp only [hk] at hall
    have hor : kw = "" ∨ hasWordOcc (to_base i a).data (unpack p a c k).data = false := by
      simpa using hall
    rcases hor with h1 | h2
    · exact absurd h1 hkw
    · exact h2
  conv_lhs => rw [unpack]
  rw [foldl_unpackStep_id a k _ _ hcond]

/-- C6, witness for the amended claim: with keywords ["x", "z"] the output
"x" of the first pass contains no residual token, and a second pass leaves
it unchanged. -/
theorem c6_unpack_witness :
    noResidual 36 2 ["x", "z"] (unpack "0" 36 2 ["x", "z"]) = true
    ∧ unpack (unpack "0" 36 2 ["x", "z"]) 36 2 ["x", "z"] = unpack "0" 36 2 ["x", "z"] :=
  ⟨by decide, c6_unpack_amended "0" 36 2 ["x", "z"] (by decide)⟩

theorem getServersGo_len (env : ServerEnv) (cid ref : String) :
    ∀ l : List Nat, (getServersGo env cid ref l).length ≤ 1 := by
  intro l
  induction l with
  | nil => simp [getServersGo]
  | cons i rest ih =>
    cases h : slotOutcome env cid ref i with
    | some ev => simp [getServersGo, h]
    | none => simp only [getServersGo, h]; exact ih

theorem getServersGo_video (env : ServerEnv) (cid ref : String) :
    ∀ l : List Nat, ∀ s ∈ getServersGo env cid ref l, s.video_url.isSome = true := by
  intro l
  induction l with
  | nil => simp [getServersGo]
  | cons i rest ih =>
    intro s hs
    cases h : slotOutcome env cid ref i with
    | some ev =>
      rw [getServersGo, h] at hs
      simp only [List.mem_singleton] at hs
      subst hs
      rfl
    | none =>
      rw [getServersGo, h] at hs
      exact ih s hs

theorem getServersGo_none (env : ServerEnv) (cid ref : String) :
    ∀ l : List Nat, (∀ i ∈ l, slotOutcome env cid ref i = none) →
      getServersGo env cid ref l = [] := by
  intro l
  induction l with
  | nil => intro _; rfl
  | cons i rest ih =>
    intro h
    rw [getServersGo, h i (by simp)]
    exact ih fun j hj => h j (by simp [hj])

theorem getServersGo_first (env : ServerEnv) (cid ref : String) (j : Nat)
    (l2 : List Nat) (e v : String) (hj : slotOutcome env cid ref j = some (e, v)) :
    ∀ l1 : List Nat, (∀ i ∈ l1, slotOutcome env cid ref i = none) →
      getServersGo env cid ref (l1 ++ j :: l2) = [mkServer j e v] := by
  intro l1
  induction l1 with
  | nil => intro _; rw [List.nil_append, getServersGo, hj]
  | cons i rest ih =>
    intro h
    rw [List.cons_append, getServersGo, h i (by simp)]
    exact ih fun x hx => h x (by simp [hx])

theorem range_split {j n : Nat} (h : j < n) :
    List.range n = List.range j ++ j :: List.range' (j + 1) (n - j - 1) := by
  have h1 : List.range' 0 j 1 ++ List.range' (0 + 1 * j) (n - j) 1 = List.range' 0 (n - j + j) 1 :=
    List.range'_append 0 j (n - j) 1
  have h2 : n - j + j = n := by omega
  have h3 : n - j = (n - j - 1) + 1 := by omega
  rw [List.range_eq_range' n, List.range_eq_range' j, ← h2, ← h1]
  congr 1
  rw [h3, List.range'_succ]
  simp

/-- C1: for every content id and referer, `get_servers` over slots 0..9
returns at most one server; every returned server has a resolved video url;
the result is empty when no slot resolves; and when slot `j` is the first
resolving slot the result is exactly the one server of that slot, tagged
with `server_number = j` (so if slot 0 yields no extractable stream and
slot 1 resolves, the result is exactly one server numbered 1, as the
witness instantiates). -/
theorem c1_server_poller (env : ServerEnv) (cid ref : String) :
    (get_servers env cid ref 10).length ≤ 1
    ∧ (∀ s ∈ get_servers env cid ref 10, s.video_url.isSome = true)
    ∧ ((∀ i, i < 10 → slotOutcome env cid ref i = none) → get_servers env cid ref 10 = [])
    ∧ (∀ j e v, j < 10 → slotOutcome env cid ref j = some (e, v) →
        (∀ i, i < j → slotOutcome env cid ref i = none) →
        get_servers env cid ref 10 = [mkServer j e v]) := by
  refine ⟨getServersGo_len env cid ref _, getServersGo_video env cid ref _, ?_, ?_⟩
  · intro h
    exact getServersGo_none env cid ref _ fun i hi => h i (List.mem_range.mp hi)
  · intro j e v hj10 hj hbefore
    unfold get_servers
    rw [range_split hj10]
    exact getServersGo_first env cid ref j _ e v hj _
      fun i hi => hbefore i (List.mem_range.mp hi)

/-- C1, witness: slot 0's vidtube embed yields no extractable stream and
slot 1 resolves, so polling returns exactly one server tagged
`server_number = 1`. -/
theorem c1_server_poller_witness :
    slotOutcome envSrv "42" "https://e.x/w/" 0 = none
    ∧ slotOutcome envSrv "42" "https://e.x/w/" 1
        = some ("https://vidtube.one/embed/b", "https://cdn.e.x/v.mp4")
    ∧ get_servers envSrv "42" "https://e.x/w/" 10
        = [mkServer 1 "https://vidtube.one/embed/b" "https://cdn.e.x/v.mp4"] :=
  ⟨by decide, by decide,
   (c1_server_poller envSrv "42" "https://e.x/w/").2.2.2 1
     "https://vidtube.one/embed/b" "https://cdn.e.x/v.mp4"
     (by decide) (by decide) (by decide)⟩

/-- C7: `_extract_content_id` is the in-order cascade of its six strategies
(first defined answer wins); it returns none exactly when every strategy is
exhausted; and on a document where both the class-token strategy and an
inline-script pattern produce an identifier, the class-token value wins
(strategies 1 and 2 being exhausted), giving one consistent value. -/
theorem c7_content_id_cascade (d : PageDoc) :
    extract_content_id d
      = firstSome [strat1 d, strat2 d, strat3 d, strat4 d, strat5 d, strat6 d]
    ∧ (extract_content_id d = none ↔
        strat1 d = none ∧ strat2 d = none ∧ strat3 d = none
        ∧ strat4 d = none ∧ strat5 d = none ∧ strat6 d = none)
    ∧ (∀ pid, strat1 d = none → strat2 d = none → strat3 d = some pid →
        extract_content_id d = some pid) := by
  refine ⟨?_, ?_, ?_⟩
  · cases h1 : strat1 d with
    | some v => simp [extract_content_id, firstSome, h1]
    | none =>
      cases h2 : strat2 d with
      | some v => simp [extract_content_id, firstSome, h1, h2]
      | none =>
        cases h3 : strat3 d with
        | some v => simp [extract_content_id, firstSome, h1, h2, h3]
        | none =>
          cases h4 : strat4 d with
          | some v => simp [extract_content_id, firstSome, h1, h2, h3, h4]
          | none =>
            cases h5 : strat5 d with
            | some v => simp [extract_content_id, firstSome, h1, h2, h3, h4, h5]
            | none =>
              cases h6 : strat6 d with
              | some v => simp [extract_content_id, firstSome, h1, h2, h3, h4, h5, h6]
              | none => simp [extract_content_id, firstSome, h1, h2, h3, h4, h5, h6]
  · constructor
    · intro h
      cases h1 : strat1 d <;> cases h2 : strat2 d <;> cases h3 : strat3 d <;>
        cases h4 : strat4 d <;> cases h5 : strat5 d <;> cases h6 : strat6 d <;>
        simp_all [extract_content_id]
    · intro ⟨h1, h2, h3, h4, h5, h6⟩
      simp [extract_content_id, h1, h2, h3, h4, h5, h6]
  · intro pid h1 h2 h3
    simp [extract_content_id, h1, h2, h3]

/-- C7, witness: on a document exposing the identifier both as a `post-42`
class token and as a `var post_id = 99` script assignment, the class-token
strategy wins and the resolver returns "42". -/
theorem c7_content_id_witness :
    strat3 docW = some "42" ∧ strat4 docW = some "99"
    ∧ extract_content_id docW = some "42" :=
  ⟨by decide, by decide,
   (c7_content_id_cascade docW).2.2 "42" (by decide) (by decide) (by decide)⟩

/-- C3, counterexample: for a url whose decoded form contains no
movie/anime/series keyword, `get_show_details` invokes the series path
first — not the movie path as claimed: with a series result carrying season
data the trace is exactly `[series]` and never begins with the movie path. -/
theorem c3_dispatch_counterexample :
    noTypeKeyword (unquote urlD) = true
    ∧ (get_show_details envD urlD).2 = [PathTag.series]
    ∧ ¬((get_show_details envD urlD).2.head? = some PathTag.movie) := by
  refine ⟨by decide, by decide, by decide⟩

/-- C3, amended: for every url whose decoded form contains no
movie/anime/series keyword, `get_show_details` dispatches to the
series-specific path first, and retries the movie path as fallback exactly
when the series path yields no season data. -/
theorem c3_dispatch_amended (env : DispatchEnv) (url : String)
    (h : noTypeKeyword (unquote url) = true) :
    (get_show_details env url).2.head? = some PathTag.series
    ∧ (match env.seriesResult "series" with
       | some sd =>
         if sd.seasons.isEmpty then
           get_show_details env url
             = (env.movieResult.map Sum.inr, [PathTag.series, PathTag.movie])
         else get_show_details env url = (some (Sum.inl sd), [PathTag.series])
       | none =>
         get_show_details env url
           = (env.movieResult.map Sum.inr, [PathTag.series, PathTag.movie])) := by
  simp only [noTypeKeyword, Bool.and_eq_true, Bool.not_eq_true'] at h
  obtain ⟨⟨⟨⟨⟨h1, h2⟩, h3⟩, h4⟩, h5⟩, h6⟩ := h
  constructor
  · cases hs : env.seriesResult "series" with
    | some sd =>
      cases he : sd.seasons.isEmpty with
      | true => simp [get_show_details, h1, h2, h3, h4, h5, h6, hs, he]
      | false => simp [get_show_details, h1, h2, h3, h4, h5, h6, hs, he]
    | none => simp [get_show_details, h1, h2, h3, h4, h5, h6, hs]
  · cases hs : env.seriesResult "series" with
    | some sd =>
      cases he : sd.seasons.isEmpty with
      | true => simp [get_show_details, h1, h2, h3, h4, h5, h6, hs, he]
      | false => simp [get_show_details, h1, h2, h3, h4, h5, h6, hs, he]
    | none => simp [get_show_details, h1, h2, h3, h4, h5, h6, hs]

/-- C3, witness for the amended claim at a keyword-free url whose series
path yields one season. -/
theorem c3_dispatch_witness :
    (get_show_details envD urlD).2.head? = some PathTag.series :=
  (c3_dispatch_amended envD urlD (by decide)).1

theorem searchFilter_types (ct : String) (hct : ct ≠ "") :
    ∀ items : List SearchItem, ∀ hit ∈ searchFilter (some ct) items, hit.type = ct := by
  intro items
  induction items with
  | nil => simp [searchFilter]
  | cons item rest ih =>
    intro hit hmem
    rw [searchFilter] at hmem
    cases hp : parseSearchResult item with
    | none => rw [hp] at hmem; exact ih hit hmem
    | some r =>
      rw [hp] at hmem
      dsimp only at hmem
      cases hcond : typeMismatch (some ct) r with
      | true =>
        rw [hcond] at hmem
        simp only [if_pos rfl] at hmem
        exact ih hit hmem
      | false =>
        rw [hcond] at hmem
        simp only [Bool.false_eq_true, if_false, List.mem_cons] at hmem
        rcases hmem with rfl | hmem
        · simp only [typeMismatch, Bool.and_eq_false_iff] at hcond
          rcases hcond with hbad | hgood
          · exact absurd hct (by simpa using hbad)
          · simpa using hgood
        · exact ih hit hmem

/-- C10: for every response and every provided nonempty content_type, every
hit returned by `search` has its type field equal to that content_type
(hits of any other type are filtered out; the empty string is falsy in
Python and means "not provided"). -/
theorem c10_search_type_filter (resp : Except Unit (List SearchItem)) (ct : String)
    (hct : ct ≠ "") : ∀ hit ∈ search resp (some ct), hit.type = ct := by
  cases resp with
  | error e => simp [search]
  | ok items => exact searchFilter_types ct hct items

/-- C10, witness: a movie-typed query over a mixed movie/series response
returns only hits typed "movie". -/
theorem c10_search_witness :
    ({ title := "Cool Movie", url := "https://e.x/movie/m1/", type := "movie" } : SearchHit).type
      = "movie" :=
  c10_search_type_filter (.ok [itemM, itemS]) "movie" (by decide) _ (by decide)

/-- C2, counterexample: a crawl whose page lists a numeric episode and a
numberless special episode sorts the special entry (key 0) before the
numeric one, so the produced list is not "strictly ascending with all
special/non-numeric entries last". -/
theorem c2_crawl_sort_counterexample :
    parseSeason envC2 "https://e.x/season-1"
      = some { season_number := 1, poster := none, episodes := [epS, epA] }
    ∧ epS.is_special = true
    ∧ specialOrNonNumeric epA = false
    ∧ claimSortedSpecialsLast [epS, epA] = false := by
  refine ⟨by decide, by decide, by decide, by decide⟩

/-- C2, amended: the episode list produced by a season crawl is sorted
ascending (non-strictly) by the `parse_episode_number` key, under which
entries labelled "special" or "0" key to 0 and therefore sort first, other
entries without a parseable number key to 99999 and sort last, and numeric
entries sort by their parsed value. -/
theorem c2_crawl_sort_amended :
    (∀ (env : CrawlEnv) (url : String) (sd : SeasonData),
        parseSeason env url = some sd → List.Sorted epLe sd.episodes)
    ∧ parse_episode_number "Special" = 0
    ∧ parse_episode_number "0" = 0
    ∧ (∀ s : String, s ≠ "" →
        (lowerStr (stripStr s) = "special" || stripStr s = "0") = false →
        numScan (stripStr s).data = none →
        parse_episode_number s = 99999)
    ∧ (∀ (s : String) (q : ℚ), s ≠ "" →
        (lowerStr (stripStr s) = "special" || stripStr s = "0") = false →
        numScan (stripStr s).data = some q →
        parse_episode_number s = q) := by
  refine ⟨?_, by decide, by decide, ?_, ?_⟩
  · intro env url sd h
    simp only [parseSeason] at h
    split at h
    · exact absurd h (by simp)
    · split at h
      · exact absurd h (by simp)
      · rw [Option.some.injEq] at h
        rw [← h]
        exact List.sorted_insertionSort epLe _
  · intro s h1 h2 h3
    simp [parse_episode_number, h1, h2, h3]
  · intro s q h1 h2 h3
    simp [parse_episode_number, h1, h2, h3]

/-- C2, witness: the concrete crawl of the counterexample environment is
sorted by the key (special entry first). -/
theorem c2_crawl_sort_witness :
    parseSeason envC2 "https://e.x/season-1"
      = some { season_number := 1, poster := none, episodes := [epS, epA] }
    ∧ List.Sorted epLe [epS, epA] :=
  ⟨by decide,
   by
    have h := c2_crawl_sort_amended.1 envC2 "https://e.x/season-1"
      { season_number := 1, poster := none, episodes := [epS, epA] } (by decide)
    simpa using h⟩

theorem crawlLoop_first_error (env : CrawlEnv) (base firstTry : String) (useList : Bool)
    (f : Nat) (seen : List String) (acc : List EpisodeRec)
    (h : env.fetch firstTry = .error ()) :
    crawlLoop env base firstTry useList (f + 1) 1 false seen acc = .error () := by
  simp only [crawlLoop]
  rw [if_neg (by omega)]
  have hp : pageUrl base firstTry false 1 = firstTry := by simp [pageUrl]
  rw [hp, h]
  simp

theorem parseSeason_first_error (env : CrawlEnv) (url : String)
    (h : env.fetch (crawlFirstTry url) = .error ()) :
    parseSeason env url = none := by
  simp only [crawlFirstTry] at h
  simp only [parseSeason]
  rw [show (200 : Nat) = 199 + 1 from rfl]
  rw [crawlLoop_first_error env _ _ _ 199 [] [] h]

theorem crawlLoop_later_error (env : CrawlEnv) (base firstTry : String) (useList : Bool)
    (f page : Nat) (fb : Bool) (seen : List String) (acc : List EpisodeRec)
    (h2 : 2 ≤ page) (h50 : page ≤ 50)
    (herr : env.fetch (pageUrl base firstTry fb page) = .error ()) :
    crawlLoop env base firstTry useList (f + 1) page fb seen acc = .ok acc := by
  simp only [crawlLoop]
  rw [if_neg (by omega)]
  rw [herr]
  have hne : page ≠ 1 := by omega
  simp [hne]

theorem parseSeason_ok (env : CrawlEnv) (url : String) (eps : List EpisodeRec)
    (pg : CrawlPage)
    (hc : crawlLoop env (rstripSlash url) (crawlFirstTry url) (crawlUseList url)
            200 1 false [] [] = .ok eps)
    (hp : env.fetch (rstripSlash url ++ "/") = .ok pg) :
    parseSeason env url
      = some { season_number := extract_season_number url, poster := pg.poster,
               episodes := sortEpisodes eps } := by
  simp only [crawlFirstTry, crawlUseList] at hc
  simp only [parseSeason]
  rw [hc, hp]

/-- C9, counterexample: when the first page fetch fails, `_parse_season`
swallows the re-raised failure into `None` and `fetch_season_episodes`
surfaces it to its caller as an empty episode list — byte-for-byte the same
caller-visible result as a successful crawl of a season with no episodes —
rather than escalating an explicit failure. -/
theorem c9_first_page_counterexample :
    parseSeason envFail "https://e.x/season-1" = none
    ∧ fetchSeasonEpisodes envFail s0 = ([], s0, 1)
    ∧ fetchSeasonEpisodes envFail s0 = fetchSeasonEpisodes envEmpty s0 := by
  refine ⟨by decide, by decide, by decide⟩

/-- C9, amended: a first-page fetch failure aborts the crawl — it is
escalated out of the pagination loop, but `_parse_season`'s own handler
converts it to `None` and `fetch_season_episodes` returns a plain empty
list to its caller (no explicit failure is raised); a failure on any later
page (2..50) only ends pagination with the partial result kept, which
`_parse_season` then returns sorted (given the poster fetch succeeds). -/
theorem c9_crawl_failure_amended :
    (∀ (env : CrawlEnv) (url : String),
        env.fetch (crawlFirstTry url) = .error () →
        parseSeason env url = none)
    ∧ (∀ (env : CrawlEnv) (s : SeasonRec),
        s.episodes = [] → s.url ≠ "" →
        env.fetch (crawlFirstTry s.url) = .error () →
        fetchSeasonEpisodes env s = ([], s, 1))
    ∧ (∀ (env : CrawlEnv) (base firstTry : String) (useList : Bool) (f page : Nat)
        (fb : Bool) (seen : List String) (acc : List EpisodeRec),
        2 ≤ page → page ≤ 50 →
        env.fetch (pageUrl base firstTry fb page) = .error () →
        crawlLoop env base firstTry useList (f + 1) page fb seen acc = .ok acc)
    ∧ (∀ (env : CrawlEnv) (url : String) (eps : List EpisodeRec) (pg : CrawlPage),
        crawlLoop env (rstripSlash url) (crawlFirstTry url) (crawlUseList url)
            200 1 false [] [] = .ok eps →
        env.fetch (rstripSlash url ++ "/") = .ok pg →
        parseSeason env url
          = some { season_number := extract_season_number url, poster := pg.poster,
                   episodes := sortEpisodes eps }) := by
  refine ⟨parseSeason_first_error, ?_, crawlLoop_later_error, parseSeason_ok⟩
  intro env s hemp hurl herr
  have hn := parseSeason_first_error env s.url herr
  have he : s.episodes.isEmpty = true := by simp [hemp]
  simp [fetchSeasonEpisodes, he, hurl, hn]

/-- C9, witness: each branch of the amended claim at a concrete input —
first-page failure gives `None`/empty list, a page-2 failure keeps the
page-1 episodes, and a successful crawl returns the sorted list. -/
theorem c9_crawl_failure_witness :
    parseSeason envFail "https://e.x/s9" = none
    ∧ fetchSeasonEpisodes envFail s0 = ([], s0, 1)
    ∧ crawlLoop envFail "https://e.x/s9" "https://e.x/s9/list" true 6 2 false [] [epA]
        = .ok [epA]
    ∧ parseSeason envC2 "https://e.x/season-1"
        = some { season_number := extract_season_number "https://e.x/season-1",
                 poster := pageC2.poster, episodes := sortEpisodes [epA, epS] } :=
  ⟨c9_crawl_failure_amended.1 envFail "https://e.x/s9" (by rfl),
   c9_crawl_failure_amended.2.1 envFail s0 (by rfl) (by decide) (by rfl),
   c9_crawl_failure_amended.2.2.1 envFail "https://e.x/s9" "https://e.x/s9/list" true 5 2
     false [] [epA] (by decide) (by decide) (by rfl),
   c9_crawl_failure_amended.2.2.2 envC2 "https://e.x/season-1" [epA, epS] pageC2
     (by rfl) (by rfl)⟩

theorem fetchSeason_cached (env : CrawlEnv) (s : SeasonRec) (h : s.episodes ≠ []) :
    fetchSeasonEpisodes env s = (s.episodes, s, 0) := by
  have he : s.episodes.isEmpty = false := by
    cases hx : s.episodes.isEmpty with
    | true => exact absurd (by simpa using hx) h
    | false => rfl
  simp [fetchSeasonEpisodes, he]

theorem fetchServers_cached (env : EpServerEnv) (e : EpisodeRec) (h : e.servers ≠ []) :
    fetchEpisodeServers env e = (e.servers, e, 0) := by
  have he : e.servers.isEmpty = false := by
    cases hx : e.servers.isEmpty with
    | true => exact absurd (by simpa using hx) h
    | false => rfl
  simp [fetchEpisodeServers, he]

/-- C8: the fetch-once contract.  A season (resp. episode) whose lazily
fetched list is already nonempty is returned unchanged with no crawl (resp.
no poll); and a successful first fetch populates the list in place on the
caller's object exactly once — any subsequent call, under any environment,
returns the populated list without fetching again. -/
theorem c8_fetch_once (env : CrawlEnv) (eenv : EpServerEnv) (s : SeasonRec)
    (e : EpisodeRec) :
    (s.episodes ≠ [] → fetchSeasonEpisodes env s = (s.episodes, s, 0))
    ∧ (e.servers ≠ [] → fetchEpisodeServers eenv e = (e.servers, e, 0))
    ∧ (∀ sd : SeasonData, s.episodes = [] → s.url ≠ "" →
        parseSeason env s.url = some sd → sd.episodes ≠ [] →
        fetchSeasonEpisodes env s
          = (sd.episodes, { s with episodes := sd.episodes, poster := sd.poster }, 1)
        ∧ (∀ env2 : CrawlEnv,
            fetchSeasonEpisodes env2 { s with episodes := sd.episodes, poster := sd.poster }
              = (sd.episodes, { s with episodes := sd.episodes, poster := sd.poster }, 0)))
    ∧ (∀ (eid : String) (srv : List StreamServer), e.servers = [] → e.url ≠ "" →
        (match eenv.extractId (normalizeWatchUrl (eenv.encode e.url)) with
         | some i => some i
         | none => eenv.extractId (eenv.encode e.url)) = some eid →
        srv = get_servers eenv.serverEnv eid (normalizeWatchUrl (eenv.encode e.url)) 10 →
        srv ≠ [] →
        fetchEpisodeServers eenv e = (srv, { e with servers := srv }, 1)
        ∧ (∀ eenv2 : EpServerEnv,
            fetchEpisodeServers eenv2 { e with servers := srv }
              = (srv, { e with servers := srv }, 0))) := by
  refine ⟨fetchSeason_cached env s, fetchServers_cached eenv e, ?_, ?_⟩
  · intro sd hemp hurl hps hsd
    have he : s.episodes.isEmpty = true := by simp [hemp]
    have hsde : sd.episodes.isEmpty = false := by
      cases hx : sd.episodes.isEmpty with
      | true => exact absurd (by simpa using hx) hsd
      | false => rfl
    constructor
    · simp [fetchSeasonEpisodes, he, hurl, hps, hsde]
    · intro env2
      exact fetchSeason_cached env2 _ (by simpa using hsd)
  · intro eid srv hemp hurl hid hsrveq hsrv
    have he : e.servers.isEmpty = true := by simp [hemp]
    have hsrve : srv.isEmpty = false := by
      cases hx : srv.isEmpty with
      | true => exact absurd (by simpa using hx) hsrv
      | false => rfl
    constructor
    · subst hsrveq
      simp only [fetchEpisodeServers, he, Bool.not_true, Bool.false_eq_true, if_false]
      rw [if_neg hurl, hid]
      simp [hsrve]
    · intro eenv2
      exact fetchServers_cached eenv2 _ (by simpa using hsrv)

/-- C8, witness: a first fetch populates the season's episode list and the
episode's server list in place, and repeated calls (even under a failing
environment) return the populated lists without fetching. -/
theorem c8_fetch_once_witness :
    fetchSeasonEpisodes envC2 s0
      = ([epS, epA], { s0 with episodes := [epS, epA], poster := none }, 1)
    ∧ fetchSeasonEpisodes envFail { s0 with episodes := [epS, epA], poster := none }
      = ([epS, epA], { s0 with episodes := [epS, epA], poster := none }, 0)
    ∧ fetchEpisodeServers envEp epA
      = ([mkServer 1 "https://vidtube.one/embed/b" "https://cdn.e.x/v.mp4"],
         { epA with servers := [mkServer 1 "https://vidtube.one/embed/b" "https://cdn.e.x/v.mp4"] }, 1)
    ∧ fetchEpisodeServers envEp
        { epA with servers := [mkServer 1 "https://vidtube.one/embed/b" "https://cdn.e.x/v.mp4"] }
      = ([mkServer 1 "https://vidtube.one/embed/b" "https://cdn.e.x/v.mp4"],
         { epA with servers := [mkServer 1 "https://vidtube.one/embed/b" "https://cdn.e.x/v.mp4"] }, 0) := by
  have h3 := (c8_fetch_once envC2 envEp s0 epA).2.2.1
    { season_number := 1, poster := none, episodes := [epS, epA] }
    (by decide) (by decide) (by decide) (by decide)
  have h4 := (c8_fetch_once envC2 envEp s0 epA).2.2.2 "42"
    [mkServer 1 "https://vidtube.one/embed/b" "https://cdn.e.x/v.mp4"]
    (by decide) (by decide) (by decide) (by decide) (by decide)
  exact ⟨h3.1, h3.2 envFail, h4.1, h4.2 envEp⟩

end Cenima
